import Mathlib

/-!
Shallow embedding of the roaster2website server (`server.js`): the site-signal
record, the heuristic grader `getMockResponse` (score, grade and report text),
the URL normalization of `fetchWebsite`, the extractor's image counts, the
generative fallback of `generateRoast`, and the landing-page renderer
`getMockLandingPage`.  JavaScript string builtins used by the source
(`startsWith`, `split`, `trim`, truthiness) are embedded as executable Lean
functions on `String`/`List Char`.
-/

/-- Embedding of JavaScript `pre` being a prefix of the character list `s`
(helper for `String.prototype.startsWith`). -/
def charPre : List Char → List Char → Bool
  | [], _ => true
  | _ :: _, [] => false
  | c :: cs, d :: ds => c = d && charPre cs ds

/-- Embedding of JavaScript `s.startsWith(p)`. -/
def jsStartsWith (s p : String) : Bool :=
  charPre p.data s.data

/-- Embedding of JavaScript `s.split(sep)` for a one-character separator:
splits on every occurrence, keeping empty pieces, and `"".split(sep) = [""]`. -/
def jsSplitAux (sep : Char) : List Char → List Char → List String
  | [], acc => [String.mk acc.reverse]
  | c :: cs, acc =>
    if c = sep then String.mk acc.reverse :: jsSplitAux sep cs []
    else jsSplitAux sep cs (c :: acc)

/-- Embedding of JavaScript `s.split(sep)` (single-character separator). -/
def jsSplit (s : String) (sep : Char) : List String :=
  jsSplitAux sep s.data []

/-- Embedding of JavaScript `s.trim()` (whitespace modeled as ASCII
whitespace). -/
def jsTrim (s : String) : String :=
  String.mk (((s.data.dropWhile Char.isWhitespace).reverse.dropWhile
    Char.isWhitespace).reverse)

/-- JavaScript truthiness of a string: falsy exactly when empty. -/
def jsTruthy (s : String) : Bool :=
  s ≠ ""

/-- The fixed signal record built by `fetchWebsite` (the `analysis` object in
`server.js`).  All counts are DOM-query lengths, hence naturals. -/
structure SiteSignals where
  url : String
  title : String
  metaDescription : String
  h1Count : Nat
  h1Text : String
  imageCount : Nat
  imagesWithoutAlt : Nat
  hasHttps : Bool
  linkCount : Nat
  hasViewport : Bool
  bodyText : String
  hasFavicon : Bool
  scriptCount : Nat
  cssCount : Nat
  formCount : Nat
  buttonCount : Nat
deriving Repr, DecidableEq

/-- The running total of `getMockResponse` before the clamp: base 50 plus the
six conditional bonuses, in source order. -/
def mockScoreRaw (a : SiteSignals) : Int :=
  let score : Int := 50
  let score := if a.hasHttps then score + 15 else score
  let score := if a.hasViewport then score + 10 else score
  let score := if jsTruthy a.metaDescription ∧
      a.metaDescription ≠ "No meta description" then score + 10 else score
  let score := if a.h1Count > 0 then score + 5 else score
  let score := if a.imagesWithoutAlt = 0 ∧ a.imageCount > 0 then score + 5
    else score
  let score := if a.hasFavicon then score + 5 else score
  score

/-- The score of `getMockResponse`: the running total clamped by
`Math.min(100, Math.max(0, score))`. -/
def mockScore (a : SiteSignals) : Int :=
  min 100 (max 0 (mockScoreRaw a))

/-- The grade ladder of `getMockResponse`:
`score >= 90 ? 'A' : score >= 80 ? 'B' : score >= 70 ? 'C' : score >= 60 ? 'D' : 'F'`. -/
def mockGrade (score : Int) : String :=
  if score ≥ 90 then "A"
  else if score ≥ 80 then "B"
  else if score ≥ 70 then "C"
  else if score ≥ 60 then "D"
  else "F"

/-- A concrete all-negative signal record: every flag false, every count zero,
every text field its sentinel (as the extractor produces for a blank page). -/
def blankSignals : SiteSignals :=
  { url := "https://example.com",
    title := "No title found",
    metaDescription := "No meta description",
    h1Count := 0,
    h1Text := "No H1 found",
    imageCount := 0,
    imagesWithoutAlt := 0,
    hasHttps := false,
    linkCount := 0,
    hasViewport := false,
    bodyText := "",
    hasFavicon := false,
    scriptCount := 0,
    cssCount := 0,
    formCount := 0,
    buttonCount := 0 }


/-- The URL normalization at the top of `fetchWebsite`:
`if (!url.startsWith('http')) url = 'https://' + url`. -/
def normalizeUrl (url : String) : String :=
  if jsStartsWith url "http" then url else "https://" ++ url

/-- The `hasHttps` field computed by `fetchWebsite` from the normalized URL:
`url.startsWith('https')`. -/
def hasHttpsOf (url : String) : Bool :=
  jsStartsWith (normalizeUrl url) "https"

/-- An element of the parsed document tree (the parser always yields such a
tree, even for malformed markup): a tag name and an attribute list. -/
structure DomElement where
  tag : String
  attrs : List (String × String)
deriving Repr, DecidableEq

/-- Attribute lookup, as in `$(e).attr(name)`: the first binding if present. -/
def getAttr (e : DomElement) (name : String) : Option String :=
  (e.attrs.find? (fun p => p.1 = name)).map Prod.snd

/-- Selector `img`. -/
def isImgTag (e : DomElement) : Bool :=
  e.tag == "img"

/-- Selector `img:not([alt]), img[alt=""]`: an `img` whose `alt` attribute is
missing or bound to the empty string (the two branches are disjoint, so the
union's size is the count of elements satisfying either). -/
def imgMissingOrEmptyAlt (e : DomElement) : Bool :=
  isImgTag e && (getAttr e "alt" == none || getAttr e "alt" == some "")

/-- The extractor's `imageCount`: `$('img').length`. -/
def imageCountOf (doc : List DomElement) : Nat :=
  doc.countP isImgTag

/-- The extractor's `imagesWithoutAlt`: `$('img:not([alt]), img[alt=""]').length`. -/
def imagesWithoutAltOf (doc : List DomElement) : Nat :=
  doc.countP imgMissingOrEmptyAlt

/-- The roast-style report template of `getMockResponse`, interpolated exactly
as in the source. -/
def roastText (a : SiteSignals) (score : Int) (grade : String) : String :=
  "## 🔥 Score: " ++ toString score ++ "/100 | Grade: " ++ grade ++ "\n\n" ++
  "### First Impressions\n" ++
  "\"" ++ a.title ++ "\" - " ++
  (if score < 70 then "Yikes. Did an intern name this during a coffee break?"
   else "Okay, the title doesn\x27t make me want to close the tab. Low bar, but cleared.") ++
  "\n\n" ++
  "### Technical Roast\n" ++
  "- HTTPS: " ++
  (if a.hasHttps then "✅ At least you\x27re not completely living in 2005"
   else "🚨 NO HTTPS?! Chrome is literally warning people about you") ++ "\n" ++
  "- Mobile: " ++
  (if a.hasViewport then "✅ Won\x27t look like a postage stamp on phones"
   else "❌ No viewport = mobile users are squinting") ++ "\n" ++
  "- Images: " ++
  (if a.imagesWithoutAlt > 0 then
    toString a.imagesWithoutAlt ++ " images playing hide and seek with alt text"
   else "Alt texts present, someone cares about accessibility") ++ "\n\n" ++
  "### What Actually Works\n" ++
  (if a.hasHttps then "You have HTTPS, so you\x27re not completely hopeless."
   else "The site... loads? That\x27s something.") ++ "\n\n" ++
  "### The Verdict\n" ++
  (if score < 60 then "This website needs CPR."
   else if score < 80 then "Mediocre. The beige of websites."
   else "Surprisingly not terrible.") ++ "\n\n" ++
  "### Quick Fixes (Do These NOW)\n" ++
  "1. " ++
  (if !a.hasHttps then "Get HTTPS immediately - it\x27s free with Let\x27s Encrypt"
   else if a.imagesWithoutAlt > 0 then "Add alt text to images"
   else "Optimize page speed") ++ "\n" ++
  "2. " ++
  (if !jsTruthy a.metaDescription || a.metaDescription == "No meta description"
   then "Add a meta description for SEO"
   else "Review heading hierarchy") ++ "\n" ++
  "3. " ++
  (if !a.hasViewport then "Add viewport meta tag for mobile"
   else "Add more clear CTAs")

/-- The professional-style report template of `getMockResponse`, interpolated
exactly as in the source. -/
def professionalText (a : SiteSignals) (score : Int) (grade : String) : String :=
  "## 📊 Score: " ++ toString score ++ "/100 | Grade: " ++ grade ++ "\n\n" ++
  "### Overview\n" ++
  "\"" ++ a.title ++ "\" presents a " ++
  (if score ≥ 70 then "solid foundation" else "functional but improvable") ++
  " website that " ++
  (if score ≥ 70 then "follows many best practices"
   else "needs attention in several key areas") ++ ".\n\n" ++
  "### Technical Assessment\n" ++
  "- **Security**: " ++
  (if a.hasHttps then "✅ HTTPS enabled" else "⚠️ Missing HTTPS - critical issue") ++
  "\n" ++
  "- **Mobile**: " ++
  (if a.hasViewport then "✅ Viewport configured"
   else "⚠️ No viewport meta - poor mobile experience") ++ "\n" ++
  "- **SEO**: " ++
  (if a.metaDescription ≠ "No meta description" then "✅ Meta description present"
   else "⚠️ Missing meta description") ++ "\n" ++
  "- **Accessibility**: " ++
  (if a.imagesWithoutAlt = 0 then "✅ Images have alt text"
   else "⚠️ " ++ toString a.imagesWithoutAlt ++ " images need alt text") ++ "\n\n" ++
  "### Strengths\n" ++
  (if a.hasHttps then "SSL certificate properly configured. " else "") ++
  (if a.hasViewport then "Mobile-responsive setup. " else "") ++
  (if a.h1Count = 1 then "Proper heading structure." else "") ++ "\n\n" ++
  "### Priority Improvements\n" ++
  "1. " ++
  (if !a.hasHttps then "**Implement SSL** - Essential for security and SEO"
   else "**Optimize performance** - Review load times") ++ "\n" ++
  "2. " ++
  (if a.imagesWithoutAlt > 0 then "**Add alt text** - Improves accessibility and SEO"
   else "**Enhance meta tags** - Better search visibility") ++ "\n" ++
  "3. " ++
  (if !a.hasViewport then "**Add viewport meta** - Critical for mobile users"
   else "**Review CTAs** - Ensure clear user actions") ++ "\n\n" ++
  "### Summary\n" ++
  "This website scores " ++ toString score ++ "/100. " ++
  (if score ≥ 70 then "It has a solid foundation with room for optimization."
   else "Focus on the priority improvements above to significantly enhance user experience and search visibility.")

/-- The heuristic grader `getMockResponse(analysis, style)`: computes the
clamped score and grade, then renders the style-selected report template. -/
def getMockResponse (a : SiteSignals) (style : String) : String :=
  let score := mockScore a
  let grade := mockGrade score
  if style == "roast" then roastText a score grade
  else professionalText a score grade

/-- The fallback logic of `generateRoast`: the generative collaborator's reply
is modeled as `Option String` (`none` when the API key is absent or the call
failed, the cases where `callGemini` returns `null`); a truthy reply is
returned verbatim, otherwise the heuristic report is returned. -/
def generateRoastResult (geminiResult : Option String) (a : SiteSignals)
    (style : String) : String :=
  match geminiResult with
  | some t => if jsTruthy t then t else getMockResponse a style
  | none => getMockResponse a style


/-- The user-supplied business questionnaire record (the `businessInfo` object
assembled by the `/api/generate-landing` route). -/
structure BusinessInfo where
  name : String
  description : String
  targetCustomer : String
  features : String
  cta : String
  contact : String
deriving Repr, DecidableEq

/-- JavaScript `list[i] || dflt`: an out-of-range index yields `undefined`
(falsy) and an empty string is falsy, so either falls back to the default. -/
def jsIndexOr (l : List String) (i : Nat) (dflt : String) : String :=
  match l[i]? with
  | some s => if jsTruthy s then s else dflt
  | none => dflt

/-- The `featureList` of `getMockLandingPage`:
`(info.features || 'Quality service, Fast delivery, Great support').split(',').map(f => f.trim())`. -/
def featureListOf (info : BusinessInfo) : List String :=
  (jsSplit (if jsTruthy info.features then info.features
    else "Quality service, Fast delivery, Great support") ',').map jsTrim

/-- The three feature-card headings of `getMockLandingPage`, with the
slot-wise defaults used when a slot is missing or blank. -/
def featureSlot (info : BusinessInfo) (i : Nat) : String :=
  let featureList := featureListOf info
  if i = 0 then jsIndexOr featureList 0 "Quality Service"
  else if i = 1 then jsIndexOr featureList 1 "Fast & Reliable"
  else jsIndexOr featureList 2 "Premium Experience"

/-- The landing-page renderer `getMockLandingPage(info)`, the template filled
verbatim; the current year read by `new Date().getFullYear()` is the only
input besides `info` and is passed explicitly. -/
def getMockLandingPage (info : BusinessInfo) (year : Nat) : String :=
  let featureList := featureListOf info
  "<!DOCTYPE html>\n" ++
  "<html lang=\"en\">\n" ++
  "<head>\n" ++
  "  <meta charset=\"UTF-8\">\n" ++
  "  <meta name=\"viewport\" content=\"width=device-width, initial-scale=1.0\">\n" ++
  "  <title>" ++ info.name ++ " - " ++ info.description ++ "</title>\n" ++
  "  <link href=\"https://fonts.googleapis.com/css2?family=Inter:wght@400;500;600;700;800&display=swap\" rel=\"stylesheet\">\n" ++
  "  <style>\n" ++
  "    * \x7b margin: 0; padding: 0; box-sizing: border-box; \x7d\n" ++
  "    body \x7b font-family: \x27Inter\x27, -apple-system, BlinkMacSystemFont, sans-serif; line-height: 1.6; color: #1a1a2e; background: #fff; \x7d\n" ++
  "    \n" ++
  "    /* Navigation */\n" ++
  "    nav \x7b position: fixed; top: 0; left: 0; right: 0; background: rgba(255,255,255,0.95); backdrop-filter: blur(10px); padding: 16px 24px; display: flex; justify-content: space-between; align-items: center; z-index: 100; border-bottom: 1px solid #eee; \x7d\n" ++
  "    .logo \x7b font-weight: 800; font-size: 1.4rem; color: #6366f1; \x7d\n" ++
  "    .nav-btn \x7b background: #6366f1; color: white; padding: 10px 24px; border-radius: 8px; text-decoration: none; font-weight: 600; font-size: 0.9rem; transition: all 0.2s; \x7d\n" ++
  "    .nav-btn:hover \x7b background: #4f46e5; transform: translateY(-1px); \x7d\n" ++
  "    \n" ++
  "    /* Hero */\n" ++
  "    .hero \x7b background: linear-gradient(135deg, #6366f1 0%, #8b5cf6 50%, #a855f7 100%); color: white; padding: 140px 24px 100px; text-align: center; position: relative; overflow: hidden; \x7d\n" ++
  "    .hero::before \x7b content: \x27\x27; position: absolute; top: -50%; left: -50%; width: 200%; height: 200%; background: radial-gradient(circle, rgba(255,255,255,0.1) 0%, transparent 60%); animation: pulse 15s ease-in-out infinite; \x7d\n" ++
  "    @keyframes pulse \x7b 0%, 100% \x7b transform: scale(1); \x7d 50% \x7b transform: scale(1.1); \x7d \x7d\n" ++
  "    .hero-content \x7b position: relative; z-index: 1; max-width: 800px; margin: 0 auto; \x7d\n" ++
  "    .badge \x7b display: inline-block; background: rgba(255,255,255,0.2); padding: 8px 16px; border-radius: 50px; font-size: 0.85rem; margin-bottom: 24px; backdrop-filter: blur(10px); \x7d\n" ++
  "    .hero h1 \x7b font-size: 3.5rem; font-weight: 800; margin-bottom: 20px; line-height: 1.1; \x7d\n" ++
  "    .hero p \x7b font-size: 1.25rem; margin-bottom: 32px; opacity: 0.95; max-width: 600px; margin-left: auto; margin-right: auto; \x7d\n" ++
  "    .cta-btn \x7b display: inline-block; background: white; color: #6366f1; padding: 16px 40px; border-radius: 12px; text-decoration: none; font-weight: 700; font-size: 1.1rem; transition: all 0.3s; box-shadow: 0 4px 15px rgba(0,0,0,0.2); \x7d\n" ++
  "    .cta-btn:hover \x7b transform: translateY(-3px); box-shadow: 0 8px 25px rgba(0,0,0,0.3); \x7d\n" ++
  "    \n" ++
  "    /* Features */\n" ++
  "    .features \x7b padding: 100px 24px; max-width: 1100px; margin: 0 auto; \x7d\n" ++
  "    .section-header \x7b text-align: center; margin-bottom: 60px; \x7d\n" ++
  "    .section-header h2 \x7b font-size: 2.5rem; font-weight: 800; margin-bottom: 16px; color: #1a1a2e; \x7d\n" ++
  "    .section-header p \x7b color: #64748b; font-size: 1.1rem; \x7d\n" ++
  "    .feature-grid \x7b display: grid; grid-template-columns: repeat(auto-fit, minmax(300px, 1fr)); gap: 32px; \x7d\n" ++
  "    .feature-card \x7b background: #f8fafc; padding: 36px; border-radius: 20px; text-align: center; transition: all 0.3s; border: 1px solid #e2e8f0; \x7d\n" ++
  "    .feature-card:hover \x7b transform: translateY(-8px); box-shadow: 0 20px 40px rgba(0,0,0,0.1); \x7d\n" ++
  "    .feature-icon \x7b width: 64px; height: 64px; background: linear-gradient(135deg, #6366f1 0%, #8b5cf6 100%); border-radius: 16px; display: flex; align-items: center; justify-content: center; font-size: 28px; margin: 0 auto 20px; \x7d\n" ++
  "    .feature-card h3 \x7b font-size: 1.3rem; font-weight: 700; margin-bottom: 12px; color: #1a1a2e; \x7d\n" ++
  "    .feature-card p \x7b color: #64748b; line-height: 1.7; \x7d\n" ++
  "    \n" ++
  "    /* Social Proof */\n" ++
  "    .social-proof \x7b background: #f8fafc; padding: 80px 24px; text-align: center; \x7d\n" ++
  "    .social-proof h2 \x7b font-size: 2rem; font-weight: 700; margin-bottom: 40px; \x7d\n" ++
  "    .stats \x7b display: flex; justify-content: center; gap: 60px; flex-wrap: wrap; \x7d\n" ++
  "    .stat \x7b text-align: center; \x7d\n" ++
  "    .stat-number \x7b font-size: 3rem; font-weight: 800; color: #6366f1; \x7d\n" ++
  "    .stat-label \x7b color: #64748b; font-size: 0.95rem; \x7d\n" ++
  "    \n" ++
  "    /* CTA Section */\n" ++
  "    .cta-section \x7b background: linear-gradient(135deg, #1a1a2e 0%, #2d2d44 100%); padding: 100px 24px; text-align: center; color: white; \x7d\n" ++
  "    .cta-section h2 \x7b font-size: 2.5rem; font-weight: 800; margin-bottom: 16px; \x7d\n" ++
  "    .cta-section p \x7b opacity: 0.8; margin-bottom: 32px; font-size: 1.1rem; \x7d\n" ++
  "    .cta-section .cta-btn \x7b background: #6366f1; color: white; \x7d\n" ++
  "    .cta-section .cta-btn:hover \x7b background: #4f46e5; \x7d\n" ++
  "    \n" ++
  "    /* Contact */\n" ++
  "    .contact \x7b padding: 80px 24px; text-align: center; \x7d\n" ++
  "    .contact h2 \x7b font-size: 2rem; font-weight: 700; margin-bottom: 24px; \x7d\n" ++
  "    .contact-info \x7b font-size: 1.2rem; color: #6366f1; font-weight: 600; \x7d\n" ++
  "    \n" ++
  "    /* Footer */\n" ++
  "    footer \x7b background: #1a1a2e; color: white; padding: 40px 24px; text-align: center; \x7d\n" ++
  "    footer p \x7b opacity: 0.7; \x7d\n" ++
  "    \n" ++
  "    @media (max-width: 768px) \x7b\n" ++
  "      .hero h1 \x7b font-size: 2.2rem; \x7d\n" ++
  "      .hero \x7b padding: 120px 20px 80px; \x7d\n" ++
  "      .stats \x7b gap: 40px; \x7d\n" ++
  "      .stat-number \x7b font-size: 2.2rem; \x7d\n" ++
  "    \x7d\n" ++
  "  </style>\n" ++
  "</head>\n" ++
  "<body>\n" ++
  "  <nav>\n" ++
  "    <div class=\"logo\">" ++ info.name ++ "</div>\n" ++
  "    <a href=\"#contact\" class=\"nav-btn\">" ++ info.cta ++ "</a>\n" ++
  "  </nav>\n" ++
  "  \n" ++
  "  <section class=\"hero\">\n" ++
  "    <div class=\"hero-content\">\n" ++
  "      <div class=\"badge\">✨ Welcome to " ++ info.name ++ "</div>\n" ++
  "      <h1>" ++ info.description ++ "</h1>\n" ++
  "      <p>We help " ++ (if jsTruthy info.targetCustomer then info.targetCustomer else "people like you") ++ " achieve their goals with our exceptional service and dedication to quality.</p>\n" ++
  "      <a href=\"#contact\" class=\"cta-btn\">" ++ info.cta ++ " →</a>\n" ++
  "    </div>\n" ++
  "  </section>\n" ++
  "  \n" ++
  "  <section class=\"features\">\n" ++
  "    <div class=\"section-header\">\n" ++
  "      <h2>Why Choose " ++ info.name ++ "?</h2>\n" ++
  "      <p>Here\x27s what makes us different</p>\n" ++
  "    </div>\n" ++
  "    <div class=\"feature-grid\">\n" ++
  "      <div class=\"feature-card\">\n" ++
  "        <div class=\"feature-icon\">⭐</div>\n" ++
  "        <h3>" ++ jsIndexOr featureList 0 "Quality Service" ++ "</h3>\n" ++
  "        <p>We\x27re committed to delivering the highest quality in everything we do. Your satisfaction is our priority.</p>\n" ++
  "      </div>\n" ++
  "      <div class=\"feature-card\">\n" ++
  "        <div class=\"feature-icon\">🚀</div>\n" ++
  "        <h3>" ++ jsIndexOr featureList 1 "Fast & Reliable" ++ "</h3>\n" ++
  "        <p>Quick turnaround times without compromising on quality. We value your time as much as you do.</p>\n" ++
  "      </div>\n" ++
  "      <div class=\"feature-card\">\n" ++
  "        <div class=\"feature-icon\">💎</div>\n" ++
  "        <h3>" ++ jsIndexOr featureList 2 "Premium Experience" ++ "</h3>\n" ++
  "        <p>From start to finish, enjoy a seamless experience that exceeds your expectations.</p>\n" ++
  "      </div>\n" ++
  "    </div>\n" ++
  "  </section>\n" ++
  "  \n" ++
  "  <section class=\"social-proof\">\n" ++
  "    <h2>Trusted by Many</h2>\n" ++
  "    <div class=\"stats\">\n" ++
  "      <div class=\"stat\">\n" ++
  "        <div class=\"stat-number\">500+</div>\n" ++
  "        <div class=\"stat-label\">Happy Customers</div>\n" ++
  "      </div>\n" ++
  "      <div class=\"stat\">\n" ++
  "        <div class=\"stat-number\">98%</div>\n" ++
  "        <div class=\"stat-label\">Satisfaction Rate</div>\n" ++
  "      </div>\n" ++
  "      <div class=\"stat\">\n" ++
  "        <div class=\"stat-number\">24/7</div>\n" ++
  "        <div class=\"stat-label\">Support Available</div>\n" ++
  "      </div>\n" ++
  "    </div>\n" ++
  "  </section>\n" ++
  "  \n" ++
  "  <section class=\"cta-section\">\n" ++
  "    <h2>Ready to Get Started?</h2>\n" ++
  "    <p>Join hundreds of satisfied customers today</p>\n" ++
  "    <a href=\"#contact\" class=\"cta-btn\">" ++ info.cta ++ " →</a>\n" ++
  "  </section>\n" ++
  "  \n" ++
  "  <section class=\"contact\" id=\"contact\">\n" ++
  "    <h2>Get In Touch</h2>\n" ++
  "    <p class=\"contact-info\">" ++ info.contact ++ "</p>\n" ++
  "  </section>\n" ++
  "  \n" ++
  "  <footer>\n" ++
  "    <p>&copy; " ++ toString year ++ " " ++ info.name ++ ". All rights reserved.</p>\n" ++
  "  </footer>\n" ++
  "</body>\n" ++
  "</html>"

/-- A concrete questionnaire record supplying a single comma-free feature, as
a witness input for the renderer's slot defaults. -/
def acmeInfo : BusinessInfo :=
  { name := "Acme",
    description := "We do things",
    targetCustomer := "everyone",
    features := "Fast shipping",
    cta := "Get Started",
    contact := "Contact us for more info" }

/-! ## Helper lemmas -/

/-- The running total of the grader written as a flat sum of its base and the
six independent conditional bonuses. -/
theorem mockScoreRaw_eq (a : SiteSignals) :
    mockScoreRaw a = 50 + (if a.hasHttps then 15 else 0)
      + (if a.hasViewport then 10 else 0)
      + (if jsTruthy a.metaDescription ∧ a.metaDescription ≠ "No meta description"
          then 10 else 0)
      + (if a.h1Count > 0 then 5 else 0)
      + (if a.imagesWithoutAlt = 0 ∧ a.imageCount > 0 then 5 else 0)
      + (if a.hasFavicon then 5 else 0) := by
  dsimp only [mockScoreRaw]
  split_ifs <;> omega

/-- The running total always lies between the base 50 and 100. -/
theorem mockScoreRaw_bounds (a : SiteSignals) :
    50 ≤ mockScoreRaw a ∧ mockScoreRaw a ≤ 100 := by
  rw [mockScoreRaw_eq]
  split_ifs <;> omega

/-- The clamp of `getMockResponse` never changes the running total. -/
theorem mockScore_eq_raw (a : SiteSignals) : mockScore a = mockScoreRaw a := by
  have h := mockScoreRaw_bounds a
  unfold mockScore
  omega

/-- A character list is a prefix of itself followed by anything. -/
theorem charPre_append (p s : List Char) : charPre p (p ++ s) = true := by
  induction p with
  | nil => rfl
  | cons c cs ih => simp [charPre, ih]

/-- Prepending `https://` always yields a string that starts with `https`. -/
theorem jsStartsWith_https_prepend (u : String) :
    jsStartsWith ("https://" ++ u) "https" = true := by
  unfold jsStartsWith
  rw [String.data_append]
  have h : "https://".data = "https".data ++ "://".data := by decide
  rw [h, List.append_assoc]
  exact charPre_append _ _

/-- A grade of F is only produced for scores below 60. -/
theorem mockGrade_F_lt (s : Int) (h : mockGrade s = "F") : s < 60 := by
  unfold mockGrade at h
  split_ifs at h <;> first
    | exact absurd h (by decide)
    | omega

/-! ## Claim theorems -/

/-- C1 counterexample: for a record whose only satisfied condition is
`h1Count = 1`, the grader yields 55 = 50 + 5, not 50 + 8; so the claimed +8
bonus for exactly one h1 does not match the code, which adds +5 whenever
`h1Count > 0`. -/
theorem h1_bonus_counterexample :
    mockScore { blankSignals with h1Count := 1 } = 55 ∧ (55 : Int) ≠ 50 + 8 := by
  exact ⟨by decide, by decide⟩

/-- C1 (amended): the grader starts at the base 50 and adds +15 for hasHttps,
+10 for hasViewport, +10 for a nonempty metaDescription different from the
sentinel, +5 whenever `h1Count > 0` (the same credit whether there is one h1
or several), +5 when `imagesWithoutAlt = 0` and `imageCount > 0`, and +5 for
hasFavicon, with the clamp never altering the total. -/
theorem score_is_base_plus_bonuses (a : SiteSignals) :
    mockScore a = 50 + (if a.hasHttps then 15 else 0)
      + (if a.hasViewport then 10 else 0)
      + (if jsTruthy a.metaDescription ∧ a.metaDescription ≠ "No meta description"
          then 10 else 0)
      + (if a.h1Count > 0 then 5 else 0)
      + (if a.imagesWithoutAlt = 0 ∧ a.imageCount > 0 then 5 else 0)
      + (if a.hasFavicon then 5 else 0) := by
  rw [mockScore_eq_raw, mockScoreRaw_eq]

/-- C2 counterexample: for a record with `imagesWithoutAlt = 6 > 5` and
`scriptCount = 21 > 20` and every bonus condition false, the grader still
returns the plain base 50, not the 35 that the claimed −10 and −5 penalties
would produce: the code defines no penalties. -/
theorem penalties_counterexample :
    mockScore { blankSignals with
      imageCount := 6, imagesWithoutAlt := 6, scriptCount := 21 } = 50 ∧
    (50 : Int) ≠ 50 - 10 - 5 := by
  exact ⟨by decide, by decide⟩

/-- C2 (amended): the grader applies no penalties at all — neither
`imagesWithoutAlt` nor `scriptCount` can lower the score.  Consequently, for
every record with hasHttps, hasViewport and hasFavicon false, the sentinel
metaDescription, and zero h1/image counts, the score equals the base 50
exactly and the grade is F. -/
theorem baseline_score_and_grade (a : SiteSignals)
    (h1 : a.hasHttps = false) (h2 : a.hasViewport = false)
    (h3 : a.metaDescription = "No meta description")
    (h4 : a.h1Count = 0) (h5 : a.imageCount = 0)
    (h6 : a.hasFavicon = false) :
    mockScore a = 50 ∧ mockGrade (mockScore a) = "F" := by
  have hs : mockScore a = 50 := by
    rw [mockScore_eq_raw, mockScoreRaw_eq, h1, h2, h3, h4, h5, h6]
    simp
  exact ⟨hs, by rw [hs]; decide⟩

/-- Witness for C2: the all-negative record scores exactly the base 50 and is
graded F. -/
theorem baseline_score_and_grade_witness :
    mockScore blankSignals = 50 ∧ mockGrade (mockScore blankSignals) = "F" :=
  baseline_score_and_grade blankSignals rfl rfl rfl rfl rfl rfl

/-- C3: for every signal record, the clamped score lies in [0, 100] and the
grade is one of the five letters A, B, C, D, F (a subset of the permitted
grade scale), produced by the deterministic threshold ladder `mockGrade`. -/
theorem score_bounds_and_grade_buckets (a : SiteSignals) :
    0 ≤ mockScore a ∧ mockScore a ≤ 100 ∧
    (mockGrade (mockScore a) = "A" ∨ mockGrade (mockScore a) = "B" ∨
     mockGrade (mockScore a) = "C" ∨ mockGrade (mockScore a) = "D" ∨
     mockGrade (mockScore a) = "F") := by
  have h := mockScoreRaw_bounds a
  have hs := mockScore_eq_raw a
  refine ⟨by omega, by omega, ?_⟩
  unfold mockGrade
  split_ifs <;> simp

/-- C10: the score never drops below the base 50 (no condition subtracts), the
lower clamp bound 0 is never active (the clamp reduces to `min 100`), and the
F bucket is reached only by scores in [50, 59]. -/
theorem score_lower_bound_and_F_range (a : SiteSignals) :
    50 ≤ mockScore a ∧ mockScore a = min 100 (mockScoreRaw a) ∧
    (mockGrade (mockScore a) = "F" →
      50 ≤ mockScore a ∧ mockScore a ≤ 59) := by
  have h := mockScoreRaw_bounds a
  have hs := mockScore_eq_raw a
  refine ⟨by omega, by unfold mockScore; omega, fun hF => ⟨by omega, ?_⟩⟩
  have := mockGrade_F_lt (mockScore a) hF
  omega

/-- Witness for C10 at the all-negative record: its score is at least 50, its
clamp is the upper one only, and its F grade pins the score into [50, 59]. -/
theorem score_lower_bound_and_F_range_witness :
    50 ≤ mockScore blankSignals ∧ mockScore blankSignals ≤ 59 :=
  ⟨(score_lower_bound_and_F_range blankSignals).1,
   ((score_lower_bound_and_F_range blankSignals).2.2 (by decide)).2⟩

/-- C4: flipping any single positive-delta condition from false to true while
holding every other field fixed never decreases the score: setting hasHttps,
hasViewport or hasFavicon to true, replacing metaDescription by any nonempty
non-sentinel text, making h1Count positive, or zeroing imagesWithoutAlt while
images are present. -/
theorem score_monotone_in_bonus_conditions (a : SiteSignals) :
    mockScore a ≤ mockScore { a with hasHttps := true } ∧
    mockScore a ≤ mockScore { a with hasViewport := true } ∧
    (∀ d : String, jsTruthy d → d ≠ "No meta description" →
      mockScore a ≤ mockScore { a with metaDescription := d }) ∧
    (∀ n : Nat, 0 < n → mockScore a ≤ mockScore { a with h1Count := n }) ∧
    (0 < a.imageCount →
      mockScore a ≤ mockScore { a with imagesWithoutAlt := 0 }) ∧
    mockScore a ≤ mockScore { a with hasFavicon := true } := by
  refine ⟨?_, ?_, ?_, ?_, ?_, ?_⟩
  · simp only [mockScore_eq_raw, mockScoreRaw_eq]
    dsimp only
    split_ifs <;> omega
  · simp only [mockScore_eq_raw, mockScoreRaw_eq]
    dsimp only
    split_ifs <;> omega
  · intro d hd hd2
    simp only [mockScore_eq_raw, mockScoreRaw_eq]
    dsimp only
    rw [if_pos (show jsTruthy d ∧ d ≠ "No meta description" from ⟨hd, hd2⟩)]
    split_ifs <;> omega
  · intro n hn
    simp only [mockScore_eq_raw, mockScoreRaw_eq]
    dsimp only
    rw [if_pos (show n > 0 from hn)]
    split_ifs <;> omega
  · intro him
    simp only [mockScore_eq_raw, mockScoreRaw_eq]
    dsimp only
    rw [if_pos (show True ∧ a.imageCount > 0 from ⟨trivial, him⟩)]
    split_ifs <;> omega
  · simp only [mockScore_eq_raw, mockScoreRaw_eq]
    dsimp only
    split_ifs <;> omega

/-- Witness for C4: concrete flips of the https, metaDescription, h1 and
alt-coverage conditions on explicit records, each non-decreasing. -/
theorem score_monotone_in_bonus_conditions_witness :
    mockScore blankSignals ≤ mockScore { blankSignals with hasHttps := true } ∧
    mockScore blankSignals ≤
      mockScore { blankSignals with metaDescription := "A fine site" } ∧
    mockScore blankSignals ≤ mockScore { blankSignals with h1Count := 2 } ∧
    mockScore { blankSignals with imageCount := 3, imagesWithoutAlt := 2 } ≤
      mockScore { { blankSignals with imageCount := 3, imagesWithoutAlt := 2 }
        with imagesWithoutAlt := 0 } :=
  ⟨(score_monotone_in_bonus_conditions blankSignals).1,
   (score_monotone_in_bonus_conditions blankSignals).2.2.1 "A fine site"
     (by decide) (by decide),
   (score_monotone_in_bonus_conditions blankSignals).2.2.2.1 2 (by decide),
   (score_monotone_in_bonus_conditions
     { blankSignals with imageCount := 3, imagesWithoutAlt := 2 }).2.2.2.2.1
     (by decide)⟩

/-- C5: in the extractor's output the count of `img` elements with a missing
or empty `alt` is at most the count of all `img` elements, for every parsed
document (hence for any input markup, malformed included: the parser always
produces some element tree, and both counts are naturals, hence
non-negative). -/
theorem imagesWithoutAlt_le_imageCount (doc : List DomElement) :
    imagesWithoutAltOf doc ≤ imageCountOf doc := by
  unfold imagesWithoutAltOf imageCountOf
  apply List.countP_mono_left
  intro e _ h
  simp only [imgMissingOrEmptyAlt, Bool.and_eq_true] at h
  exact h.1

/-- C6: the heuristic grader is deterministic — two calls on identical signal
records and style flags produce byte-identical report text and identical
scores.  The embedding is a pure function of `(signals, style)` alone: the
source computes the score and both report templates from the analysis record
only, with no clock or randomness. -/
theorem getMockResponse_deterministic (a b : SiteSignals) (s t : String)
    (hab : a = b) (hst : s = t) :
    getMockResponse a s = getMockResponse b t ∧ mockScore a = mockScore b := by
  subst hab
  subst hst
  exact ⟨rfl, rfl⟩

/-- Witness for C6: two identical calls on the all-negative record in roast
style agree. -/
theorem getMockResponse_deterministic_witness :
    getMockResponse blankSignals "roast" = getMockResponse blankSignals "roast" ∧
    mockScore blankSignals = mockScore blankSignals :=
  getMockResponse_deterministic blankSignals blankSignals "roast" "roast" rfl rfl

/-- C7 counterexample: the raw URL "httpster.io" lacks both the `http://` and
the `https://` scheme prefix, yet the fetcher leaves it unchanged (the check
is only `startsWith('http')`), and the resulting hasHttps flag is true even
though the normalized URL's scheme is not https (it does not even start with
`https://`). -/
theorem url_normalization_counterexample :
    jsStartsWith "httpster.io" "http://" = false ∧
    jsStartsWith "httpster.io" "https://" = false ∧
    normalizeUrl "httpster.io" = "httpster.io" ∧
    jsStartsWith (normalizeUrl "httpster.io") "https://" = false ∧
    hasHttpsOf "httpster.io" = true := by
  decide

/-- C7 (amended): the fetcher's check is the four-character prefix `http`: for
every rawUrl that does not start with `http`, it prepends `https://`, and then
the hasHttps flag is true; in general hasHttps is exactly "the normalized URL
starts with the five characters `https`", a pure function of the normalized
URL string, independent of any server response. -/
theorem url_normalization_prepends_https (u : String)
    (h : jsStartsWith u "http" = false) :
    normalizeUrl u = "https://" ++ u ∧ hasHttpsOf u = true ∧
    hasHttpsOf u = jsStartsWith (normalizeUrl u) "https" := by
  have hn : normalizeUrl u = "https://" ++ u := by
    unfold normalizeUrl
    rw [h]
    simp
  refine ⟨hn, ?_, rfl⟩
  unfold hasHttpsOf
  rw [hn]
  exact jsStartsWith_https_prepend u

/-- Witness for C7 at the schemeless URL "example.com": it gets `https://`
prepended and is flagged as https. -/
theorem url_normalization_prepends_https_witness :
    normalizeUrl "example.com" = "https://" ++ "example.com" ∧
    hasHttpsOf "example.com" = true ∧
    hasHttpsOf "example.com" =
      jsStartsWith (normalizeUrl "example.com") "https" :=
  url_normalization_prepends_https "example.com" (by decide)

/-- C8: when the generative collaborator is unavailable or fails —
`callGemini` returns `null` (modeled `none`) or an empty (falsy) text — the
roast generator returns exactly the deterministic heuristic report
`getMockResponse(signals, style)`, a complete report with no error value. -/
theorem generateRoast_fallback_is_mock (a : SiteSignals) (style : String) :
    generateRoastResult none a style = getMockResponse a style ∧
    generateRoastResult (some "") a style = getMockResponse a style := by
  constructor
  · rfl
  · simp [generateRoastResult, jsTruthy]

/-- C9: the landing-page renderer is a total function — it produces an HTML
string for every BusinessInfo record, empty strings included — and is
deterministic: two calls on identical records (at the same wall-clock year,
the template's only external input, confined to the footer text) yield
identical HTML.  When the comma-split feature list has fewer than three
entries, the missing second and third feature slots fall back to the
documented default labels. -/
theorem landing_page_deterministic_and_slot_defaults
    (i1 i2 : BusinessInfo) (year : Nat) (h : i1 = i2) :
    getMockLandingPage i1 year = getMockLandingPage i2 year ∧
    ((featureListOf i1).length ≤ 1 → featureSlot i1 1 = "Fast & Reliable") ∧
    ((featureListOf i1).length ≤ 2 → featureSlot i1 2 = "Premium Experience") := by
  subst h
  refine ⟨rfl, ?_, ?_⟩
  · intro hl
    show jsIndexOr (featureListOf i1) 1 "Fast & Reliable" = "Fast & Reliable"
    unfold jsIndexOr
    rw [List.getElem?_eq_none hl]
  · intro hl
    show jsIndexOr (featureListOf i1) 2 "Premium Experience" = "Premium Experience"
    unfold jsIndexOr
    rw [List.getElem?_eq_none hl]

/-- Witness for C9: rendering the Acme record (single feature "Fast shipping",
so slots two and three are missing) twice in the same year gives identical
HTML, and the missing slots carry their default labels. -/
theorem landing_page_deterministic_and_slot_defaults_witness :
    getMockLandingPage acmeInfo 2026 = getMockLandingPage acmeInfo 2026 ∧
    featureSlot acmeInfo 1 = "Fast & Reliable" ∧
    featureSlot acmeInfo 2 = "Premium Experience" :=
  ⟨(landing_page_deterministic_and_slot_defaults acmeInfo acmeInfo 2026 rfl).1,
   (landing_page_deterministic_and_slot_defaults acmeInfo acmeInfo 2026 rfl).2.1
     (by decide),
   (landing_page_deterministic_and_slot_defaults acmeInfo acmeInfo 2026 rfl).2.2
     (by decide)⟩
